import Mathlib

/-!
Verification of the ADBTool repository (ADBTool.py and ADBTool_multithread.py):
a Tkinter front-end around the `adb` command-line tool.  The Python string
operations used by the code (`in`, `lower`, `splitlines`, `strip`, `replace`,
`startswith`, `endswith`, `join`) are embedded as executable functions on
`String`/`List Char`, and the output formatters, command builders and the
command-runner state machine are transcribed from the source.
-/

/-! ## Python string primitives -/

/-- Python `str.lower` restricted to ASCII letters (the only case-relevant
characters appearing in the program's marker strings). -/
def asciiToLower (c : Char) : Char :=
  match c with
  | 'A' => 'a' | 'B' => 'b' | 'C' => 'c' | 'D' => 'd' | 'E' => 'e'
  | 'F' => 'f' | 'G' => 'g' | 'H' => 'h' | 'I' => 'i' | 'J' => 'j'
  | 'K' => 'k' | 'L' => 'l' | 'M' => 'm' | 'N' => 'n' | 'O' => 'o'
  | 'P' => 'p' | 'Q' => 'q' | 'R' => 'r' | 'S' => 's' | 'T' => 't'
  | 'U' => 'u' | 'V' => 'v' | 'W' => 'w' | 'X' => 'x' | 'Y' => 'y'
  | 'Z' => 'z'
  | c => c

/-- Python `str.lower`. -/
def pyLower (s : String) : String := ⟨s.data.map asciiToLower⟩

/-- Boolean prefix test on lists of characters (Python `str.startswith`). -/
def isPrefixB : List Char → List Char → Bool
  | [], _ => true
  | _ :: _, [] => false
  | a :: as, b :: bs => a == b && isPrefixB as bs

/-- Boolean contiguous-substring test (Python `needle in hay`). -/
def isSubstr : List Char → List Char → Bool
  | pat, [] => pat.isEmpty
  | pat, c :: rest => isPrefixB pat (c :: rest) || isSubstr pat rest

/-- Python `needle in hay` on `String`. -/
def pyIn (needle hay : String) : Bool := isSubstr needle.data hay.data

/-- Python `str.startswith` on `String`. -/
def pyStartswith (pre s : String) : Bool := isPrefixB pre.data s.data

/-- Boolean suffix test (Python `str.endswith`). -/
def pyEndswith (suf s : String) : Bool := isPrefixB suf.data.reverse s.data.reverse

/-- Python `str.splitlines` for `\n`-separated text: a trailing newline does
not produce a final empty line. -/
def pySplitlinesL : List Char → List (List Char)
  | [] => []
  | '\n' :: rest => [] :: pySplitlinesL rest
  | c :: rest =>
    match pySplitlinesL rest with
    | [] => [[c]]
    | line :: lines => (c :: line) :: lines

/-- Python `str.splitlines` on `String`. -/
def pySplitlines (s : String) : List String := (pySplitlinesL s.data).map (⟨·⟩)

/-- Python whitespace test used by `str.strip`. -/
def pyIsSpace (c : Char) : Bool :=
  c == ' ' || c == '\t' || c == '\n' || c == '\r' || c == '\x0b' || c == '\x0c'

/-- Python `str.strip` (no argument: strip whitespace from both ends). -/
def pyStrip (s : String) : String :=
  ⟨((s.data.dropWhile pyIsSpace).reverse.dropWhile pyIsSpace).reverse⟩

/-- Fuel-driven worker for `pyReplace`: replaces each non-overlapping,
leftmost-first occurrence of `pat` by `rep`. -/
def pyReplaceAux : Nat → List Char → List Char → List Char → List Char
  | 0, l, _, _ => l
  | _ + 1, [], _, _ => []
  | fuel + 1, c :: rest, pat, rep =>
    if isPrefixB pat (c :: rest) && !pat.isEmpty then
      rep ++ pyReplaceAux fuel ((c :: rest).drop pat.length) pat rep
    else
      c :: pyReplaceAux fuel rest pat rep

/-- Python `str.replace` (all occurrences) for a non-empty pattern. -/
def pyReplace (s pat rep : String) : String :=
  ⟨pyReplaceAux s.data.length s.data pat.data rep.data⟩

/-- Python `sep.join` on a list of strings. -/
def pyJoin (sep : String) (parts : List String) : String :=
  String.intercalate sep parts

/-! ## Operations with an output formatter in both variants

One constructor per `format_*` method that exists in both `ADBTool.py` and
`ADBTool_multithread.py` (`format_scrcpy` exists only in the multithreaded
variant and is kept separate). -/

inductive Op
  | devices | install | search | uninstall | sideload
  | shutdown | recovery | reboot
  | back | home | applications | volume_up | power | volume_down
  | settings | factory_test
  | push | storage | pull | screenshot
  | network | activity | text | command | start_activity
deriving DecidableEq, Repr

/-! ## Output formatters of ADBTool_multithread.py (lines 222-407) -/

namespace MT

def format_devices (output : String) : String :=
  let lines := (pySplitlines output).filter (fun ln => !(pyStrip ln).isEmpty)
  if lines.isEmpty || (lines.drop 1).all (fun ln => !(pyIn "device" ln)) then
    "No devices connected!\n\nCommand run: \"adb devices\""
  else
    pyJoin "\n" ((lines.drop 1).map (fun ln => pyReplace ln "\tdevice" " → Connected")) ++
      "\n\nCommand run: \"adb devices\""

def format_install (output : String) : String :=
  if pyIn "Success" output || pyIn "success" (pyLower output) then
    "Installation Successful!\n\nCommand run: \"adb install <APK_PATH>\""
  else if pyIn "no devices" (pyLower output) then
    "No devices connected!"
  else
    "Installation Result:\n" ++ output ++ "\n\nCommand run: \"adb install <APK_PATH>\""

def format_search (output : String) : String :=
  if (pyStrip output).isEmpty then
    "No package found!\n\nCommand run: \"adb shell pm list packages | grep <PACKAGE_NAME>\""
  else if pyIn "no devices" (pyLower output) then
    "No devices connected!"
  else
    pyJoin "\n" (((pySplitlines output).filter (fun ln => !(pyStrip ln).isEmpty)).map
        (fun ln => pyReplace ln "package:" "")) ++
      "\n\nCommand run: \"adb shell pm list packages | grep <PACKAGE_NAME>\""

def format_uninstall (output : String) : String :=
  if pyIn "Success" output || pyIn "success" (pyLower output) then
    "Uninstallation Successful!"
  else if pyIn "no devices" (pyLower output) then
    "No devices connected!"
  else
    "Uninstallation Result:\n" ++ output ++ "\n\nCommand run: \"adb uninstall <PACKAGE_NAME>\""

def format_sideload (output : String) : String :=
  if pyIn "failed" (pyLower output) then
    "Make sure the device is in sideload mode and try again.\n(Select \"Apply update from ADB\" in Recovery Mode)\n\n" ++ output
  else
    "Sideloading Finished. (Check output below.)\n\n" ++ output ++
      "\n\nCommand run: \"adb sideload <FIRMWARE_PATH>.zip\""

def format_shutdown (output : String) : String :=
  if pyIn "no devices" (pyLower output) then "No devices connected!"
  else "Shutdown initiated\n\nCommand run: \"adb reboot -p\""

def format_recovery (output : String) : String :=
  if pyIn "no devices" (pyLower output) then "No devices connected!"
  else "Recovery initiated\n\nCommand run: \"adb reboot recovery\""

def format_reboot (output : String) : String :=
  if pyIn "no devices" (pyLower output) then "No devices connected!"
  else "Reboot initiated\n\nCommand run: \"adb reboot\""

def format_back (output : String) : String :=
  if pyIn "no devices" (pyLower output) then "No devices connected!"
  else "Back command executed\n\nCommand run: \"adb shell input keyevent 4\""

def format_home (output : String) : String :=
  if pyIn "no devices" (pyLower output) then "No devices connected!"
  else "Home command executed\n\nCommand run: \"adb shell input keyevent 3\""

def format_applications (output : String) : String :=
  if pyIn "no devices" (pyLower output) then "No devices connected!"
  else "Applications command executed\n\nCommand run: \"adb shell input keyevent 187\""

def format_volume_up (output : String) : String :=
  if pyIn "no devices" (pyLower output) then "No devices connected!"
  else "Volume Up command executed\n\nCommand run: \"adb shell input keyevent 24\""

def format_power (output : String) : String :=
  if pyIn "no devices" (pyLower output) then "No devices connected!"
  else "Power (Lock/Unlock) command executed\n\nCommand run: \"adb shell input keyevent 26\""

def format_volume_down (output : String) : String :=
  if pyIn "no devices" (pyLower output) then "No devices connected!"
  else "Volume Down command executed\n\nCommand run: \"adb shell input keyevent 25\""

def format_settings (output : String) : String :=
  if pyIn "no devices" (pyLower output) then "No devices connected!"
  else "Settings command executed\n\nCommand run: \"adb shell am start -n com.android.settings/.Settings\""

def format_factory_test (output : String) : String :=
  if pyIn "no devices" (pyLower output) then "No devices connected!"
  else "Factory Test command executed\n\nCommand run: \"adb shell am start -n com.ubx.factorykit/.Framework.Framework\""

def format_push (output : String) : String :=
  if pyIn "no devices" (pyLower output) then "No devices connected!"
  else if pyIn "failed" (pyLower output) then
    "Push failed. Check the local and device paths.\n\n" ++ output
  else
    "File pushed successfully:\n" ++ output ++
      "\n\nCommand run: \"adb push <LOCAL_PATH> <DEVICE_PATH>\""

def format_storage (output : String) : String :=
  if pyIn "no devices" (pyLower output) then "No devices connected!"
  else "Device Storage:\n" ++ output ++ "\n\nCommand run: \"adb shell ls -l <DEVICE_PATH>\""

def format_pull (output : String) : String :=
  if pyIn "no devices" (pyLower output) then "No devices connected!"
  else if pyIn "failed" (pyLower output) then
    "Pull failed. Check the device and local paths.\n\n" ++ output
  else
    "File pulled successfully:\n" ++ output ++
      "\n\nCommand run: \"adb pull <DEVICE_PATH> <LOCAL_PATH>\""

def format_screenshot (output : String) : String :=
  if pyIn "no devices" (pyLower output) then "No devices connected!"
  else if pyIn "failed" (pyLower output) then
    "Screenshot failed. Check the device state.\n\n" ++ output
  else
    "Screenshot saved on device under /sdcard/Pictures/Screenshot_*.png\n" ++
      "You may pull it to your Mac with adb pull.\n\n" ++
      "Command run: \"adb shell screencap -p /sdcard/Pictures/<Screenshot_Timestamp>.png\""

def format_network (output : String) : String :=
  if pyIn "no devices" (pyLower output) then "No devices connected!"
  else if (pyStrip output).isEmpty then
    "Network check returned no output. Device might be offline or command unsupported."
  else
    "Network configuration:\n" ++ output ++ "\n\nCommand run: \"adb shell ifconfig\""

def format_activity (output : String) : String :=
  if pyIn "no devices" (pyLower output) then "No devices connected!"
  else if !(pyIn "mCurrentFocus" output) && !(pyIn "mFocusedApp" output) then
    "No current activity found. Output:\n" ++ output
  else
    match (pySplitlines output).find?
        (fun ln => pyIn "mCurrentFocus" ln || pyIn "mFocusedApp" ln) with
    | some ln =>
      "Current focus:\n" ++ pyStrip ln ++
        "\n\nCommand run: \"adb shell dumpsys window | grep mCurrentFocus\""
    | none => "Current activity (raw output):\n" ++ output

def format_scrcpy (output : String) : String :=
  if pyIn "ERROR" (pyLower output) then "No devices connected!"
  else "CASTING started in the BACKGROUND"

def format_text (output : String) : String :=
  if pyIn "no devices" (pyLower output) then "No devices connected!"
  else "Text entered.\n\nCommand run: \"adb shell input text <TEXT>\""

def format_command (output : String) : String :=
  if pyIn "no devices" (pyLower output) then "No devices connected!"
  else output

def format_start_activity (output : String) : String :=
  if pyIn "no devices" (pyLower output) then "No devices connected!"
  else if pyIn "Error" output || pyIn "not found" (pyLower output) then
    "Failed to start activity. Check the package/activity name.\n\n" ++ output
  else
    "Activity started (or adb returned output):\n" ++ output ++
      "\n\nCommand run: \"adb shell am start -n <PACKAGE_NAME>/<ACTIVITY_NAME>\""

/-- Dispatch from operation tag to its output formatter. -/
def formatOutput : Op → String → String
  | .devices => format_devices
  | .install => format_install
  | .search => format_search
  | .uninstall => format_uninstall
  | .sideload => format_sideload
  | .shutdown => format_shutdown
  | .recovery => format_recovery
  | .reboot => format_reboot
  | .back => format_back
  | .home => format_home
  | .applications => format_applications
  | .volume_up => format_volume_up
  | .power => format_power
  | .volume_down => format_volume_down
  | .settings => format_settings
  | .factory_test => format_factory_test
  | .push => format_push
  | .storage => format_storage
  | .pull => format_pull
  | .screenshot => format_screenshot
  | .network => format_network
  | .activity => format_activity
  | .text => format_text
  | .command => format_command
  | .start_activity => format_start_activity

end MT

/-! ## Output formatters of the blocking variant ADBTool.py (lines 102-258) -/

namespace BK

def format_devices (output : String) : String :=
  let lines := (pySplitlines output).filter (fun ln => !(pyStrip ln).isEmpty)
  if lines.isEmpty || (lines.drop 1).all (fun ln => !(pyIn "device" ln)) then
    "No devices connected!\n\nCommand run: \"adb devices\""
  else
    pyJoin "\n" ((lines.drop 1).map (fun ln => pyReplace ln "\tdevice" " → Connected")) ++
      "\n\nCommand run: \"adb devices\""

def format_install (output : String) : String :=
  if pyIn "Success" output || pyIn "success" (pyLower output) then
    "Installation Successful!\n\nCommand run: \"adb install <APK_PATH>\""
  else if pyIn "no devices" (pyLower output) then
    "No devices connected!"
  else
    "Installation Result:\n" ++ output ++ "\n\nCommand run: \"adb install <APK_PATH>\""

def format_search (output : String) : String :=
  if (pyStrip output).isEmpty then
    "No package found!\n\nCommand run: \"adb shell pm list packages | grep <PACKAGE_NAME>\""
  else if pyIn "no devices" (pyLower output) then
    "No devices connected!"
  else
    pyJoin "\n" (((pySplitlines output).filter (fun ln => !(pyStrip ln).isEmpty)).map
        (fun ln => pyReplace ln "package:" "")) ++
      "\n\nCommand run: \"adb shell pm list packages | grep <PACKAGE_NAME>\""

def format_uninstall (output : String) : String :=
  if pyIn "Success" output || pyIn "success" (pyLower output) then
    "Uninstallation Successful!"
  else if pyIn "no devices" (pyLower output) then
    "No devices connected!"
  else
    "Uninstallation Result:\n" ++ output ++ "\n\nCommand run: \"adb uninstall <PACKAGE_NAME>\""

def format_sideload (output : String) : String :=
  if pyIn "failed" (pyLower output) then
    "Make sure the device is in sideload mode and try again.\n(Select \"Apply update from ADB\" in Recovery Mode)\n\n" ++ output
  else
    "Sideloading Finished. (Check output below.)\n\n" ++ output ++
      "\n\nCommand run: \"adb sideload <FIRMWARE_PATH>.zip\""

def format_shutdown (output : String) : String :=
  if pyIn "no devices" (pyLower output) then "No devices connected!"
  else "Shutdown initiated\n\nCommand run: \"adb reboot -p\""

def format_recovery (output : String) : String :=
  if pyIn "no devices" (pyLower output) then "No devices connected!"
  else "Recovery initiated\n\nCommand run: \"adb reboot recovery\""

def format_reboot (output : String) : String :=
  if pyIn "no devices" (pyLower output) then "No devices connected!"
  else "Reboot initiated\n\nCommand run: \"adb reboot\""

def format_back (output : String) : String :=
  if pyIn "no devices" (pyLower output) then "No devices connected!"
  else "Back command executed\n\nCommand run: \"adb shell input keyevent 4\""

def format_home (output : String) : String :=
  if pyIn "no devices" (pyLower output) then "No devices connected!"
  else "Home command executed\n\nCommand run: \"adb shell input keyevent 3\""

def format_applications (output : String) : String :=
  if pyIn "no devices" (pyLower output) then "No devices connected!"
  else "Applications command executed\n\nCommand run: \"adb shell input keyevent 187\""

def format_volume_up (output : String) : String :=
  if pyIn "no devices" (pyLower output) then "No devices connected!"
  else "Volume Up command executed\n\nCommand run: \"adb shell input keyevent 24\""

def format_power (output : String) : String :=
  if pyIn "no devices" (pyLower output) then "No devices connected!"
  else "Power (Lock/Unlock) command executed\n\nCommand run: \"adb shell input keyevent 26\""

def format_volume_down (output : String) : String :=
  if pyIn "no devices" (pyLower output) then "No devices connected!"
  else "Volume Down command executed\n\nCommand run: \"adb shell input keyevent 25\""

def format_settings (output : String) : String :=
  if pyIn "no devices" (pyLower output) then "No devices connected!"
  else "Settings command executed\n\nCommand run: \"adb shell am start -n com.android.settings/.Settings\""

def format_factory_test (output : String) : String :=
  if pyIn "no devices" (pyLower output) then "No devices connected!"
  else "Factory Test command executed\n\nCommand run: \"adb shell am start -n com.ubx.factorykit/.Framework.Framework\""

def format_push (output : String) : String :=
  if pyIn "no devices" (pyLower output) then "No devices connected!"
  else if pyIn "failed" (pyLower output) then
    "Push failed. Check the local and device paths.\n\n" ++ output
  else
    "File pushed successfully:\n" ++ output ++
      "\n\nCommand run: \"adb push <LOCAL_PATH> <DEVICE_PATH>\""

def format_storage (output : String) : String :=
  if pyIn "no devices" (pyLower output) then "No devices connected!"
  else "Device Storage:\n" ++ output ++ "\n\nCommand run: \"adb shell ls -l <DEVICE_PATH>\""

def format_pull (output : String) : String :=
  if pyIn "no devices" (pyLower output) then "No devices connected!"
  else if pyIn "failed" (pyLower output) then
    "Pull failed. Check the device and local paths.\n\n" ++ output
  else
    "File pulled successfully:\n" ++ output ++
      "\n\nCommand run: \"adb pull <DEVICE_PATH> <LOCAL_PATH>\""

def format_screenshot (output : String) : String :=
  if pyIn "no devices" (pyLower output) then "No devices connected!"
  else if pyIn "failed" (pyLower output) then
    "Screenshot failed. Check the device state.\n\n" ++ output
  else
    "Screenshot saved on device under /sdcard/Pictures/Screenshot_*.png\n" ++
      "You may pull it to your Mac with adb pull.\n\n" ++
      "Command run: \"adb shell screencap -p /sdcard/Pictures/<Screenshot_Timestamp>.png\""

def format_network (output : String) : String :=
  if pyIn "no devices" (pyLower output) then "No devices connected!"
  else if (pyStrip output).isEmpty then
    "Network check returned no output. Device might be offline or command unsupported."
  else
    "Network configuration:\n" ++ output ++ "\n\nCommand run: \"adb shell ifconfig\""

def format_activity (output : String) : String :=
  if pyIn "no devices" (pyLower output) then "No devices connected!"
  else if !(pyIn "mCurrentFocus" output) && !(pyIn "mFocusedApp" output) then
    "No current activity found. Output:\n" ++ output
  else
    match (pySplitlines output).find?
        (fun ln => pyIn "mCurrentFocus" ln || pyIn "mFocusedApp" ln) with
    | some ln =>
      "Current focus:\n" ++ pyStrip ln ++
        "\n\nCommand run: \"adb shell dumpsys window | grep mCurrentFocus\""
    | none => "Current activity (raw output):\n" ++ output

def format_text (output : String) : String :=
  if pyIn "no devices" (pyLower output) then "No devices connected!"
  else "Text entered.\n\nCommand run: \"adb shell input text <TEXT>\""

def format_command (output : String) : String :=
  if pyIn "no devices" (pyLower output) then "No devices connected!"
  else output

def format_start_activity (output : String) : String :=
  if pyIn "no devices" (pyLower output) then "No devices connected!"
  else if pyIn "Error" output || pyIn "not found" (pyLower output) then
    "Failed to start activity. Check the package/activity name.\n\n" ++ output
  else
    "Activity started (or adb returned output):\n" ++ output ++
      "\n\nCommand run: \"adb shell am start -n <PACKAGE_NAME>/<ACTIVITY_NAME>\""

/-- Dispatch from operation tag to its output formatter in the blocking variant. -/
def formatOutput : Op → String → String
  | .devices => format_devices
  | .install => format_install
  | .search => format_search
  | .uninstall => format_uninstall
  | .sideload => format_sideload
  | .shutdown => format_shutdown
  | .recovery => format_recovery
  | .reboot => format_reboot
  | .back => format_back
  | .home => format_home
  | .applications => format_applications
  | .volume_up => format_volume_up
  | .power => format_power
  | .volume_down => format_volume_down
  | .settings => format_settings
  | .factory_test => format_factory_test
  | .push => format_push
  | .storage => format_storage
  | .pull => format_pull
  | .screenshot => format_screenshot
  | .network => format_network
  | .activity => format_activity
  | .text => format_text
  | .command => format_command
  | .start_activity => format_start_activity

end BK

/-! ## Command Runner state machine (ADBTool_multithread.py, lines 93-139)

GUI-side state relevant to the Command Runner: the Running Flag
(`command_running`), the progress counter, the text widget contents, the
thread-safe hand-off queue (`result_queue`, entries are
(formatted text, originating button)), the number of worker threads started
so far, and the set of disabled buttons.  Buttons are identified by `Nat`. -/

structure GuiState where
  command_running : Bool
  progress_counter : Nat
  output_text : String
  result_queue : List (String × Option Nat)
  workers : Nat
  disabled_buttons : List Nat
deriving DecidableEq, Repr

/-- `_show_error` (lines 163-165): clear the text widget and print the error. -/
def show_error (msg : String) (st : GuiState) : GuiState :=
  { st with output_text := "Error: " ++ msg ++ "\n" }

/-- Result of the synchronous part of `run_single_adb_command`. -/
inductive SubmitOutcome
  | rejected
  | started
deriving DecidableEq, Repr

/-- Synchronous part of `run_single_adb_command` (lines 93-105 and 139): busy
gate, flag set, progress reset, status text, button disabling, worker start.
The formatter argument is captured by the worker closure and not consulted
here. -/
def run_single_adb_command (_command : String) (_fmt : String → String)
    (button : Option Nat) (st : GuiState) : GuiState × SubmitOutcome :=
  if st.command_running then
    (show_error "Another command is running. Please wait." st, .rejected)
  else
    ({ st with
        command_running := true
        progress_counter := 0
        output_text := "Running command... Please wait.\n"
        disabled_buttons :=
          match button with
          | some b => b :: st.disabled_buttons
          | none => st.disabled_buttons
        workers := st.workers + 1 },
      .started)

/-- Paths configured in `__init__` (lines 25-26). -/
def adb_path : String := "/Users/patrickxu/Library/Android/sdk/platform-tools/adb"

def scrcpy_path : String := "/Users/patrickxu/scrcpy-macos-aarch64-v3.3.1/scrcpy"

/-- Outcome of one external-process interaction, seen from the worker:
`communicate` returned captured output, or one of the exceptions the `except`
clause of `thread_target` can catch (`str(e)` is the carried message). -/
inductive ExecOutcome
  | completed (stdout stderr : String)
  | timeoutExpired (msg : String)
  | launchFailure (msg : String)
  | otherExc (msg : String)
deriving DecidableEq, Repr

/-- The operating system as the worker sees it: `popen_communicate c t` is
`Popen(c, shell=True)` followed by `communicate(timeout=t)`;
`popen_background c` launches `c` without waiting (`some msg` models a raised
exception with message `msg`). -/
structure OS where
  popen_communicate : String → Nat → ExecOutcome
  popen_background : String → Option String

/-- The command line actually handed to `Popen` by `thread_target`: the
`scrcpy` sentinel launches the mirroring tool, every other invocation string
has every occurrence of `"adb"` replaced by the configured tool path
(line 122). -/
def executed_command (command : String) : String :=
  if command == "scrcpy" then scrcpy_path else pyReplace command "adb" adb_path

/-- The text computed by `thread_target` (lines 107-134) for the hand-off
queue: formatter output on success, `"Error: " ++ str(e)` for any caught
exception.  The wait on the external process uses the fixed timeout 300. -/
def worker_formatted (os : OS) (command : String) (fmt : String → String) : String :=
  if command == "scrcpy" then
    match os.popen_background (executed_command command) with
    | none => fmt ""
    | some e => "Error: " ++ e
  else
    match os.popen_communicate (executed_command command) 300 with
    | .completed stdout stderr => fmt (stdout ++ stderr)
    | .timeoutExpired e => "Error: " ++ e
    | .launchFailure e => "Error: " ++ e
    | .otherExc e => "Error: " ++ e

/-- Full effect of `thread_target` on the shared state (lines 135-137, the
`finally` block): enqueue the (text, button) pair and clear the Running
Flag. -/
def thread_target (os : OS) (command : String) (fmt : String → String)
    (button : Option Nat) (st : GuiState) : GuiState :=
  { st with
      result_queue := st.result_queue ++ [(worker_formatted os command fmt, button)]
      command_running := false }

/-! ## Button handlers with precondition checks (lines 409-517) -/

/-- Filesystem facts consulted by the handlers (`os.path.isfile`,
`os.path.exists`). -/
structure Fs where
  isFile : String → Bool
  pathExists : String → Bool

/-- What a button handler does before any worker is involved: show an inline
precondition error, or submit a fully built invocation string. -/
inductive HandlerResult
  | precondError (msg : String)
  | submitted (command : String)
deriving DecidableEq, Repr

/-- `run_install_apk` (lines 409-419); `expanduser` models
`os.path.expanduser`. -/
def run_install_apk (expanduser : String → String) (fs : Fs)
    (entry_text : String) : HandlerResult :=
  let apk_path := pyStrip entry_text
  if apk_path.isEmpty then
    .precondError "Please enter a valid APK path"
  else
    let apk_path := expanduser apk_path
    if !fs.isFile apk_path || !pyEndswith ".apk" (pyLower apk_path) then
      .precondError "Please enter a valid APK path (file must exist and end with .apk)"
    else
      .submitted ("adb install \"" ++ apk_path ++ "\"")

/-- `run_adb_push` (lines 475-487). -/
def run_adb_push (expanduser : String → String) (fs : Fs)
    (local_entry device_entry : String) : HandlerResult :=
  let local_path := expanduser (pyStrip local_entry)
  let device_path := pyStrip device_entry
  if local_path.isEmpty || !fs.pathExists local_path then
    .precondError "Please select a valid local file"
  else if device_path.isEmpty || !pyStartswith "/sdcard/" device_path then
    .precondError "Please enter a valid device path (starting with /sdcard/)"
  else
    .submitted ("adb push \"" ++ local_path ++ "\" \"" ++ device_path ++ "\"")

/-- `run_adb_pull` (lines 489-501). -/
def run_adb_pull (expanduser : String → String)
    (device_entry local_entry : String) : HandlerResult :=
  let device_path := pyStrip device_entry
  let local_path := expanduser (pyStrip local_entry)
  if device_path.isEmpty || !pyStartswith "/sdcard/" device_path then
    .precondError "Please enter a valid device path (starting with /sdcard/)"
  else if local_path.isEmpty then
    .precondError "Please select a valid local save path"
  else
    .submitted ("adb pull \"" ++ device_path ++ "\" \"" ++ local_path ++ "\"")

/-- `run_check_storage` (lines 467-473). -/
def run_check_storage (device_entry : String) : HandlerResult :=
  let path := pyStrip device_entry
  if path.isEmpty || !pyStartswith "/sdcard/" path then
    .precondError "Please enter a valid device storage path (starting with /sdcard/)"
  else
    .submitted ("adb shell ls -l \"" ++ path ++ "\"")

/-- Overall outcome of pressing a button. -/
inductive ActionResult
  | precondFailed
  | busyRejected
  | workerStarted
deriving DecidableEq, Repr

/-- How every handler continues: a precondition error is shown inline and
nothing else happens; a built invocation is handed to
`run_single_adb_command`. -/
def dispatch (r : HandlerResult) (fmt : String → String) (button : Option Nat)
    (st : GuiState) : GuiState × ActionResult :=
  match r with
  | .precondError msg => (show_error msg st, .precondFailed)
  | .submitted cmd =>
    match run_single_adb_command cmd fmt button st with
    | (st', .rejected) => (st', .busyRejected)
    | (st', .started) => (st', .workerStarted)

def install_apk_action (expanduser : String → String) (fs : Fs)
    (entry_text : String) (button : Option Nat) (st : GuiState) :
    GuiState × ActionResult :=
  dispatch (run_install_apk expanduser fs entry_text) MT.format_install button st

def adb_push_action (expanduser : String → String) (fs : Fs)
    (local_entry device_entry : String) (button : Option Nat) (st : GuiState) :
    GuiState × ActionResult :=
  dispatch (run_adb_push expanduser fs local_entry device_entry) MT.format_push button st

def adb_pull_action (expanduser : String → String)
    (device_entry local_entry : String) (button : Option Nat) (st : GuiState) :
    GuiState × ActionResult :=
  dispatch (run_adb_pull expanduser device_entry local_entry) MT.format_pull button st

def check_storage_action (device_entry : String) (button : Option Nat)
    (st : GuiState) : GuiState × ActionResult :=
  dispatch (run_check_storage device_entry) MT.format_storage button st

/-! ## Command Formatter (invocation strings built by the handlers) -/

/-- One logical operation together with its user-supplied string parameters,
as built by the handlers and button lambdas of ADBTool_multithread.py. -/
inductive CmdOp
  | listDevices
  | install (apk_path : String)
  | search (apk_name : String)
  | uninstall (apk_name : String)
  | sideload (firmware_path : String)
  | shutdown | recovery | reboot
  | back | home | applications | volume_up | power | volume_down
  | settings | factory_test
  | storage (path : String)
  | push (local_path device_path : String)
  | pull (device_path local_path : String)
  | network | activityCheck
  | textInput (txt : String)
  | execute (command : String)
  | start_activity (activity : String)
  | screencap (ts : String)
  | scrcpy
deriving DecidableEq, Repr

/-- The invocation string each operation submits (the f-string templates of
the handlers and button lambdas). -/
def format_command_op : CmdOp → String
  | .listDevices => "adb devices"
  | .install p => "adb install \"" ++ p ++ "\""
  | .search n => "adb shell pm list packages | grep -i \"" ++ n ++ "\""
  | .uninstall n => "adb uninstall \"" ++ n ++ "\""
  | .sideload p => "adb sideload \"" ++ p ++ "\""
  | .shutdown => "adb reboot -p"
  | .recovery => "adb reboot recovery"
  | .reboot => "adb reboot"
  | .back => "adb shell input keyevent 4"
  | .home => "adb shell input keyevent 3"
  | .applications => "adb shell input keyevent 187"
  | .volume_up => "adb shell input keyevent 24"
  | .power => "adb shell input keyevent 26"
  | .volume_down => "adb shell input keyevent 25"
  | .settings => "adb shell am start -n com.android.settings/.Settings"
  | .factory_test => "adb shell am start -n com.ubx.factorykit/.Framework.Framework"
  | .storage p => "adb shell ls -l \"" ++ p ++ "\""
  | .push lp dp => "adb push \"" ++ lp ++ "\" \"" ++ dp ++ "\""
  | .pull dp lp => "adb pull \"" ++ dp ++ "\" \"" ++ lp ++ "\""
  | .network => "adb shell ifconfig"
  | .activityCheck => "adb shell dumpsys window | grep mCurrentFocus"
  | .textInput t => "adb shell input text \"" ++ pyReplace t "\"" "\\\"" ++ "\""
  | .execute c => c
  | .start_activity a => "adb shell am start -n \"" ++ a ++ "\""
  | .screencap ts => "adb shell screencap -p /sdcard/Pictures/Screenshot_" ++ ts ++ ".png"
  | .scrcpy => "scrcpy"

/-- The output formatter each operation's call site passes to the runner. -/
def formatter_of : CmdOp → (String → String)
  | .listDevices => MT.format_devices
  | .install _ => MT.format_install
  | .search _ => MT.format_search
  | .uninstall _ => MT.format_uninstall
  | .sideload _ => MT.format_sideload
  | .shutdown => MT.format_shutdown
  | .recovery => MT.format_recovery
  | .reboot => MT.format_reboot
  | .back => MT.format_back
  | .home => MT.format_home
  | .applications => MT.format_applications
  | .volume_up => MT.format_volume_up
  | .power => MT.format_power
  | .volume_down => MT.format_volume_down
  | .settings => MT.format_settings
  | .factory_test => MT.format_factory_test
  | .storage _ => MT.format_storage
  | .push _ _ => MT.format_push
  | .pull _ _ => MT.format_pull
  | .network => MT.format_network
  | .activityCheck => MT.format_activity
  | .textInput _ => MT.format_text
  | .execute _ => MT.format_command
  | .start_activity _ => MT.format_start_activity
  | .screencap _ => MT.format_screenshot
  | .scrcpy => MT.format_scrcpy

/-- `run_screenshot` (lines 343-350): both commands are built from one
timestamp sample `ts` (`home` models `os.path.expanduser("~")`), then the
`adb`-to-path rewrite is applied to each. -/
def run_screenshot_cmds (ts home : String) : String × String :=
  let device_path := "/sdcard/Pictures/Screenshot_" ++ ts ++ ".png"
  let local_path := home ++ "/Desktop/Screenshot_" ++ ts ++ ".png"
  let screencap_cmd := "adb shell screencap -p " ++ device_path
  let pull_cmd := "adb pull " ++ device_path ++ " \"" ++ local_path ++ "\""
  (pyReplace screencap_cmd "adb" adb_path, pyReplace pull_cmd "adb" adb_path)

/-! ## Helper lemmas -/

theorem asciiToLower_ne_E (c : Char) : asciiToLower c ≠ 'E' := by
  unfold asciiToLower
  split <;> first | decide | simp_all

theorem isSubstr_head_mem {p : Char} {ps l : List Char}
    (h : isSubstr (p :: ps) l = true) : p ∈ l := by
  induction l with
  | nil => simp [isSubstr, List.isEmpty] at h
  | cons c rest ih =>
    simp only [isSubstr, Bool.or_eq_true] at h
    rcases h with hp | hs
    · rw [isPrefixB] at hp
      simp only [Bool.and_eq_true, beq_iff_eq] at hp
      rw [hp.1]
      exact List.mem_cons_self _ _
    · exact List.mem_cons_of_mem _ (ih hs)

/-! ## Claim theorems -/

/-- C10: for every operation defined in both variants and every input text,
the Output Formatter of the blocking variant (ADBTool.py) and of the threaded
variant (ADBTool_multithread.py) return the same string. -/
theorem c10_formatters_equivalent : ∀ (op : Op) (s : String),
    BK.formatOutput op s = MT.formatOutput op s := by
  intro op s
  cases op <;> rfl

/-- C4 (counterexample): on the raw text `"List of devices attached"` the
list-devices formatter does not return exactly the fixed
`"No devices connected!"` string — its no-devices branch appends the fixed
command echo. -/
theorem c4_counterexample :
    MT.format_devices "List of devices attached" ≠ "No devices connected!" := by
  decide

/-- C4 (amended): on `"List of devices attached\nABC123\tdevice"` the
list-devices formatter returns a display string containing
`"ABC123 → Connected"`; on `"List of devices attached"` with no further lines
it returns its fixed no-devices message, which is `"No devices connected!"`
followed by the command echo (so the display text starts with
`"No devices connected!"`). -/
theorem c4_devices_scenarios :
    pyIn "ABC123 → Connected"
        (MT.format_devices "List of devices attached\nABC123\tdevice") = true
    ∧ MT.format_devices "List of devices attached"
        = "No devices connected!\n\nCommand run: \"adb devices\""
    ∧ pyStartswith "No devices connected!"
        (MT.format_devices "List of devices attached") = true := by
  decide

/-- The operations whose output formatter tests the `"no devices"` marker as
its very first check.  Excluded: `devices` and `sideload` (no marker check at
all), `install`, `uninstall` (success heuristic first), `search` (blank-output
check first). -/
def checks_no_devices_first : Op → Bool
  | .shutdown | .recovery | .reboot | .back | .home | .applications
  | .volume_up | .power | .volume_down | .settings | .factory_test
  | .push | .storage | .pull | .screenshot | .network | .activity
  | .text | .command | .start_activity => true
  | .devices | .install | .search | .uninstall | .sideload => false

/-- C2 (counterexample): the sideload formatter has no `"no devices"` check at
all, so a raw text containing the marker does not yield the fixed message. -/
theorem c2_counterexample :
    pyIn "no devices" (pyLower "no devices") = true
    ∧ MT.formatOutput Op.sideload "no devices" ≠ "No devices connected!" := by
  decide

/-- C2 (amended): for every operation whose formatter tests the
`"no devices"` marker first (all of them except `devices` and `sideload`,
which lack the check, and `install`, `uninstall`, `search`, which apply a
success or blank-output heuristic first), every raw text containing the
marker case-insensitively yields the fixed `"No devices connected!"`
message. -/
theorem c2_no_devices_first (op : Op) (s : String)
    (hop : checks_no_devices_first op = true)
    (h : pyIn "no devices" (pyLower s) = true) :
    MT.formatOutput op s = "No devices connected!" := by
  cases op <;>
    simp_all [checks_no_devices_first, MT.formatOutput, MT.format_shutdown,
      MT.format_recovery, MT.format_reboot, MT.format_back, MT.format_home,
      MT.format_applications, MT.format_volume_up, MT.format_power,
      MT.format_volume_down, MT.format_settings, MT.format_factory_test,
      MT.format_push, MT.format_storage, MT.format_pull, MT.format_screenshot,
      MT.format_network, MT.format_activity, MT.format_text,
      MT.format_command, MT.format_start_activity]

/-- C2 (witness): the shutdown formatter on a concrete marker-bearing text. -/
theorem c2_no_devices_first_witness :
    checks_no_devices_first Op.shutdown = true
    ∧ pyIn "no devices" (pyLower "error: NO DEVICES/emulators found") = true
    ∧ MT.formatOutput Op.shutdown "error: NO DEVICES/emulators found"
        = "No devices connected!" :=
  ⟨by decide, by decide,
    c2_no_devices_first Op.shutdown "error: NO DEVICES/emulators found"
      (by decide) (by decide)⟩

/-- C8: the pre-execution rewrite replaces every occurrence of `"adb"` in the
invocation string, not only the leading command word: for the uninstall
invocation of package `com.adbdemo.app` (which contains `"adb"`), the
executed command line embeds the configured tool path inside the package
argument, and differs from the leading-word-only rewrite. -/
theorem c8_replace_everywhere :
    pyIn "adb" "com.adbdemo.app" = true
    ∧ executed_command "adb uninstall \"com.adbdemo.app\""
        = adb_path ++ " uninstall \"com." ++ adb_path ++ "demo.app\""
    ∧ executed_command "adb uninstall \"com.adbdemo.app\""
        ≠ adb_path ++ " uninstall \"com.adbdemo.app\"" := by
  decide

/-- C9: the screen-mirroring formatter returns
`"CASTING started in the BACKGROUND"` for every input string — its guard
looks for the uppercase marker `"ERROR"` inside the lowercased text, which
never matches, so the error branch is unreachable. -/
theorem c9_scrcpy_always_casting (s : String) :
    MT.format_scrcpy s = "CASTING started in the BACKGROUND" := by
  have h : pyIn "ERROR" (pyLower s) = false := by
    cases hb : pyIn "ERROR" (pyLower s)
    · rfl
    · exfalso
      have hb' : isSubstr ('E' :: "RROR".data) (pyLower s).data = true := hb
      have hmem : ('E' : Char) ∈ (pyLower s).data := isSubstr_head_mem hb'
      have hmem' : ('E' : Char) ∈ s.data.map asciiToLower := hmem
      rcases List.mem_map.mp hmem' with ⟨c, _, hc⟩
      exact asciiToLower_ne_E c hc
  simp [MT.format_scrcpy, h]

/-- C5: every Output Formatter is a total function on strings — for every
operation and every raw text (the empty string included) it yields exactly
one result string, and so does the round trip that feeds the formatted
invocation through an arbitrary runner `run` and back through the
operation's formatter.  Totality holds by construction: the embedded
formatters are plain Lean functions, mirroring Python code that uses only
total string operations. -/
theorem c5_formatters_total :
    ∀ (op : Op) (s : String) (run : String → String) (c : CmdOp),
      (∃! t : String, MT.formatOutput op s = t)
      ∧ (∃! t : String, MT.format_scrcpy s = t)
      ∧ (∃! t : String, formatter_of c (run (format_command_op c)) = t) := by
  intro op s run c
  exact ⟨⟨_, rfl, fun y hy => hy.symm⟩, ⟨_, rfl, fun y hy => hy.symm⟩,
    ⟨_, rfl, fun y hy => hy.symm⟩⟩

/-- C7: the Command Formatter is deterministic and idempotent — formatting
the same operation and parameters twice (holding the sampled timestamp fixed
for the screenshot pair) yields identical invocation strings; the embedding
is a pure function, so there are no side effects on any other state. -/
theorem c7_format_command_deterministic :
    ∀ (c₁ c₂ : CmdOp) (ts₁ ts₂ home : String), c₁ = c₂ → ts₁ = ts₂ →
      format_command_op c₁ = format_command_op c₂
      ∧ run_screenshot_cmds ts₁ home = run_screenshot_cmds ts₂ home := by
  intro c₁ c₂ ts₁ ts₂ home h1 h2
  subst h1
  subst h2
  exact ⟨rfl, rfl⟩

/-- C7 (witness): the install operation and a fixed screenshot timestamp. -/
theorem c7_format_command_deterministic_witness :
    format_command_op (CmdOp.install "/Users/patrickxu/Desktop/demo.apk")
      = format_command_op (CmdOp.install "/Users/patrickxu/Desktop/demo.apk")
    ∧ run_screenshot_cmds "20250812_120000" "/Users/patrickxu"
      = run_screenshot_cmds "20250812_120000" "/Users/patrickxu" :=
  c7_format_command_deterministic _ _ _ _ _ rfl rfl

/-- C1: whenever the Running Flag is set, `run_single_adb_command` returns
synchronously with the busy error shown, leaves the flag set, enqueues
nothing on the hand-off queue, starts no second worker and disables no
button — so at most one invocation is ever in flight. -/
theorem c1_busy_rejection :
    ∀ (command : String) (fmt : String → String) (button : Option Nat)
      (st : GuiState), st.command_running = true →
      (run_single_adb_command command fmt button st).2 = SubmitOutcome.rejected
      ∧ (run_single_adb_command command fmt button st).1.command_running
          = st.command_running
      ∧ (run_single_adb_command command fmt button st).1.result_queue
          = st.result_queue
      ∧ (run_single_adb_command command fmt button st).1.workers = st.workers
      ∧ (run_single_adb_command command fmt button st).1.disabled_buttons
          = st.disabled_buttons
      ∧ (run_single_adb_command command fmt button st).1.output_text
          = "Error: Another command is running. Please wait.\n" := by
  intro command fmt button st h
  simp [run_single_adb_command, h, show_error]

/-- C1 (witness): a concrete busy state with one worker in flight. -/
theorem c1_busy_rejection_witness :
    (GuiState.mk true 3 "Still running... (3s)\n" [] 1 [7]).command_running = true
    ∧ ((run_single_adb_command "adb devices" MT.format_devices (some 7)
          (GuiState.mk true 3 "Still running... (3s)\n" [] 1 [7])).2
        = SubmitOutcome.rejected
      ∧ (run_single_adb_command "adb devices" MT.format_devices (some 7)
          (GuiState.mk true 3 "Still running... (3s)\n" [] 1 [7])).1.command_running
          = (GuiState.mk true 3 "Still running... (3s)\n" [] 1 [7]).command_running
      ∧ (run_single_adb_command "adb devices" MT.format_devices (some 7)
          (GuiState.mk true 3 "Still running... (3s)\n" [] 1 [7])).1.result_queue
          = (GuiState.mk true 3 "Still running... (3s)\n" [] 1 [7]).result_queue
      ∧ (run_single_adb_command "adb devices" MT.format_devices (some 7)
          (GuiState.mk true 3 "Still running... (3s)\n" [] 1 [7])).1.workers
          = (GuiState.mk true 3 "Still running... (3s)\n" [] 1 [7]).workers
      ∧ (run_single_adb_command "adb devices" MT.format_devices (some 7)
          (GuiState.mk true 3 "Still running... (3s)\n" [] 1 [7])).1.disabled_buttons
          = (GuiState.mk true 3 "Still running... (3s)\n" [] 1 [7]).disabled_buttons
      ∧ (run_single_adb_command "adb devices" MT.format_devices (some 7)
          (GuiState.mk true 3 "Still running... (3s)\n" [] 1 [7])).1.output_text
          = "Error: Another command is running. Please wait.\n") :=
  ⟨rfl, c1_busy_rejection "adb devices" MT.format_devices (some 7)
    (GuiState.mk true 3 "Still running... (3s)\n" [] 1 [7]) rfl⟩

/-- C3: for every submitted invocation other than the screen-mirroring one,
the worker waits on the external process with the fixed timeout 300, every
failure (timeout, launch exception, or any other exception) becomes an
`"Error: ..."` text placed on the hand-off queue with the Running Flag
cleared, the worker never throws (it is a total function into `GuiState`),
and the external process is consulted exactly once with that timeout — two
operating systems agreeing on that single call produce identical results, so
nothing is retried. -/
theorem c3_worker_failure_semantics :
    ∀ (os os2 : OS) (command : String) (fmt : String → String)
      (button : Option Nat) (st : GuiState) (e : String),
      command ≠ "scrcpy" →
      (thread_target os command fmt button st).command_running = false
      ∧ (thread_target os command fmt button st).result_queue
          = st.result_queue ++ [(worker_formatted os command fmt, button)]
      ∧ (os.popen_communicate (executed_command command) 300
            = ExecOutcome.timeoutExpired e →
          worker_formatted os command fmt = "Error: " ++ e)
      ∧ (os.popen_communicate (executed_command command) 300
            = ExecOutcome.launchFailure e →
          worker_formatted os command fmt = "Error: " ++ e)
      ∧ (os.popen_communicate (executed_command command) 300
            = ExecOutcome.otherExc e →
          worker_formatted os command fmt = "Error: " ++ e)
      ∧ (os.popen_communicate (executed_command command) 300
            = os2.popen_communicate (executed_command command) 300 →
          worker_formatted os command fmt = worker_formatted os2 command fmt) := by
  intro os os2 command fmt button st e hcmd
  have hb : (command == "scrcpy") = false := beq_eq_false_iff_ne.mpr hcmd
  refine ⟨rfl, rfl, ?_, ?_, ?_, ?_⟩
  · intro hto
    simp [worker_formatted, hb, hto]
  · intro hlf
    simp [worker_formatted, hb, hlf]
  · intro hoe
    simp [worker_formatted, hb, hoe]
  · intro hagree
    simp [worker_formatted, hb, hagree]

/-- C3 (witness): a timed-out `adb devices` invocation on a concrete state. -/
theorem c3_worker_failure_semantics_witness :
    worker_formatted
        ⟨fun _ _ => ExecOutcome.timeoutExpired "Command timed out after 300 seconds",
          fun _ => none⟩
        "adb devices" MT.format_devices
      = "Error: " ++ "Command timed out after 300 seconds"
    ∧ (thread_target
        ⟨fun _ _ => ExecOutcome.timeoutExpired "Command timed out after 300 seconds",
          fun _ => none⟩
        "adb devices" MT.format_devices none
        (GuiState.mk true 0 "Running command... Please wait.\n" [] 1 [])).command_running
      = false :=
  have h := c3_worker_failure_semantics
    ⟨fun _ _ => ExecOutcome.timeoutExpired "Command timed out after 300 seconds",
      fun _ => none⟩
    ⟨fun _ _ => ExecOutcome.timeoutExpired "Command timed out after 300 seconds",
      fun _ => none⟩
    "adb devices" MT.format_devices none
    (GuiState.mk true 0 "Running command... Please wait.\n" [] 1 [])
    "Command timed out after 300 seconds" (by decide)
  ⟨h.2.2.1 rfl, h.1⟩

/-- C6: a precondition-violating input — an install path that does not name
an existing `.apk` file, or a push/pull/storage device path that does not
start with `"/sdcard/"` — yields an inline precondition error: no invocation
is submitted, no worker starts, and the Running Flag, hand-off queue and
worker count are unchanged. -/
theorem c6_precondition_errors :
    ∀ (ex : String → String) (fs : Fs) (button : Option Nat) (st : GuiState)
      (install_entry local_entry device_entry : String),
      (¬(fs.isFile (ex (pyStrip install_entry)) = true
          ∧ pyEndswith ".apk" (pyLower (ex (pyStrip install_entry))) = true) →
        (install_apk_action ex fs install_entry button st).2
            = ActionResult.precondFailed
        ∧ (install_apk_action ex fs install_entry button st).1.command_running
            = st.command_running
        ∧ (install_apk_action ex fs install_entry button st).1.result_queue
            = st.result_queue
        ∧ (install_apk_action ex fs install_entry button st).1.workers
            = st.workers)
      ∧ (pyStartswith "/sdcard/" (pyStrip device_entry) = false →
          (adb_push_action ex fs local_entry device_entry button st).2
              = ActionResult.precondFailed
          ∧ (adb_push_action ex fs local_entry device_entry button st).1.command_running
              = st.command_running
          ∧ (adb_push_action ex fs local_entry device_entry button st).1.result_queue
              = st.result_queue
          ∧ (adb_push_action ex fs local_entry device_entry button st).1.workers
              = st.workers)
      ∧ (pyStartswith "/sdcard/" (pyStrip device_entry) = false →
          (adb_pull_action ex device_entry local_entry button st).2
              = ActionResult.precondFailed
          ∧ (adb_pull_action ex device_entry local_entry button st).1.command_running
              = st.command_running
          ∧ (adb_pull_action ex device_entry local_entry button st).1.result_queue
              = st.result_queue
          ∧ (adb_pull_action ex device_entry local_entry button st).1.workers
              = st.workers)
      ∧ (pyStartswith "/sdcard/" (pyStrip device_entry) = false →
          (check_storage_action device_entry button st).2
              = ActionResult.precondFailed
          ∧ (check_storage_action device_entry button st).1.command_running
              = st.command_running
          ∧ (check_storage_action device_entry button st).1.result_queue
              = st.result_queue
          ∧ (check_storage_action device_entry button st).1.workers
              = st.workers) := by
  intro ex fs button st install_entry local_entry device_entry
  refine ⟨?_, ?_, ?_, ?_⟩
  · intro hns
    by_cases he : (pyStrip install_entry).isEmpty
    · simp [install_apk_action, dispatch, run_install_apk, he, show_error]
    · have hcond : (!fs.isFile (ex (pyStrip install_entry))
          || !pyEndswith ".apk" (pyLower (ex (pyStrip install_entry)))) = true := by
        cases hA : fs.isFile (ex (pyStrip install_entry)) <;>
          cases hB : pyEndswith ".apk" (pyLower (ex (pyStrip install_entry))) <;>
          simp_all
      simp [install_apk_action, dispatch, run_install_apk, he, hcond, show_error]
  · intro hdev
    by_cases hl : ((ex (pyStrip local_entry)).isEmpty
        || !fs.pathExists (ex (pyStrip local_entry))) = true
    · simp [adb_push_action, dispatch, run_adb_push, hl, show_error]
    · simp [adb_push_action, dispatch, run_adb_push, hl, hdev, show_error]
  · intro hdev
    simp [adb_pull_action, dispatch, run_adb_pull, hdev, show_error]
  · intro hdev
    simp [check_storage_action, dispatch, run_check_storage, hdev, show_error]

/-- C6 (witness): an install path without the `.apk` extension and a device
path outside `/sdcard/`, on an idle concrete state with an empty
filesystem. -/
theorem c6_precondition_errors_witness :
    ((install_apk_action id ⟨fun _ => false, fun _ => false⟩
        "/Users/patrickxu/Desktop/demo.txt" none
        (GuiState.mk false 0 "" [] 0 [])).2 = ActionResult.precondFailed
      ∧ (install_apk_action id ⟨fun _ => false, fun _ => false⟩
          "/Users/patrickxu/Desktop/demo.txt" none
          (GuiState.mk false 0 "" [] 0 [])).1.command_running
          = (GuiState.mk false 0 "" [] 0 []).command_running
      ∧ (install_apk_action id ⟨fun _ => false, fun _ => false⟩
          "/Users/patrickxu/Desktop/demo.txt" none
          (GuiState.mk false 0 "" [] 0 [])).1.result_queue
          = (GuiState.mk false 0 "" [] 0 []).result_queue
      ∧ (install_apk_action id ⟨fun _ => false, fun _ => false⟩
          "/Users/patrickxu/Desktop/demo.txt" none
          (GuiState.mk false 0 "" [] 0 [])).1.workers
          = (GuiState.mk false 0 "" [] 0 []).workers)
    ∧ ((check_storage_action "/data/local/tmp" none
        (GuiState.mk false 0 "" [] 0 [])).2 = ActionResult.precondFailed
      ∧ (check_storage_action "/data/local/tmp" none
          (GuiState.mk false 0 "" [] 0 [])).1.command_running
          = (GuiState.mk false 0 "" [] 0 []).command_running
      ∧ (check_storage_action "/data/local/tmp" none
          (GuiState.mk false 0 "" [] 0 [])).1.result_queue
          = (GuiState.mk false 0 "" [] 0 []).result_queue
      ∧ (check_storage_action "/data/local/tmp" none
          (GuiState.mk false 0 "" [] 0 [])).1.workers
          = (GuiState.mk false 0 "" [] 0 []).workers) :=
  have h := c6_precondition_errors id ⟨fun _ => false, fun _ => false⟩ none
    (GuiState.mk false 0 "" [] 0 [])
    "/Users/patrickxu/Desktop/demo.txt" "/Users/patrickxu/Desktop/a.bin"
    "/data/local/tmp"
  ⟨h.1 (by decide), h.2.2.2 (by decide)⟩
